import Mathlib

/-!
Verification of the EduTrack clickstream pipeline
(backend `server-local.js`, the client `ClickstreamService`, and the
aggregation code in `LearningProgress` / `AnalyticsDashboard` /
`App-old.jsx`), as a shallow embedding in Lean 4.

Conventions of the embedding:
* JavaScript values that may be a string, a number or `undefined`
  (e.g. the stored `userId` field) are modelled by `JsVal`.
* `new Date(s)` is modelled by the parse result `Option Int`
  (`some t` = epoch milliseconds, `none` = Invalid Date / NaN);
  relational comparisons involving NaN are false, exactly as in JS.
* Numeric string conversion inside loose equality (`==`) is modelled by
  `String.toInt?` (sufficient for the integer ids the code compares).
* `localStorage` and the on-disk JSON files are modelled as explicit
  list-valued state threaded through the functions.
-/

namespace EduTrack

/-- A JavaScript value as stored in an event field: a string, a number,
or `undefined`. -/
inductive JsVal where
  | str (s : String)
  | num (n : Int)
  | undef
deriving DecidableEq, Repr

/-- JavaScript strict equality `===` restricted to `JsVal`. -/
def jsStrictEq : JsVal → JsVal → Bool
  | .str a, .str b => a = b
  | .num a, .num b => a = b
  | .undef, .undef => true
  | _, _ => false

/-- JavaScript loose equality `==` restricted to `JsVal`; a number and a
string compare equal when the string is the numeral of the number
(modelled with `String.toInt?`). -/
def jsLooseEq : JsVal → JsVal → Bool
  | .str a, .str b => a = b
  | .num a, .num b => a = b
  | .num a, .str b =>
    match b.toInt? with
    | some v => a = v
    | none => false
  | .str a, .num b =>
    match a.toInt? with
    | some v => v = b
    | none => false
  | .undef, .undef => true
  | _, _ => false

/-- JavaScript `||` on a possibly-undefined string, with the empty
string falsy: `a || b`. -/
def jsOrStr (a : Option String) (b : String) : String :=
  match a with
  | some s => if s = "" then b else s
  | none => b

/-- JavaScript `||` where the fallback may itself be undefined. -/
def jsOrOpt (a b : Option String) : Option String :=
  match a with
  | some s => if s = "" then b else some s
  | none => b

/-- JS comparison `new Date(a) >= new Date(b)` on parse results:
false whenever either side is an Invalid Date (NaN). -/
def jsDateGe (a b : Option Int) : Bool :=
  match a, b with
  | some x, some y => decide (y ≤ x)
  | _, _ => false

/-- JS comparison `new Date(a) <= new Date(b)` on parse results:
false whenever either side is an Invalid Date (NaN). -/
def jsDateLe (a b : Option Int) : Bool :=
  match a, b with
  | some x, some y => decide (x ≤ y)
  | _, _ => false

/-- An event record as stored in `clickstream.json`, restricted to the
fields the analytics endpoints read: the stored `userId`, the top-level
legacy `page` field, the `eventData.page` field, and the parse result of
its `timestamp` string. -/
structure SrvEvent where
  userId : JsVal
  page : JsVal
  eventDataPage : Option String
  ts : Option Int
deriving DecidableEq, Repr

/-- The four optional query parameters of `GET /api/analytics/clickstream`.
A date parameter is `some p` when supplied, where `p` is the parse result
of the supplied string (`none` inside = unparseable). -/
structure Query where
  userId : Option String := none
  page : Option String := none
  startDate : Option (Option Int) := none
  endDate : Option (Option Int) := none
deriving DecidableEq, Repr

/-- Response shape of `GET /api/analytics/clickstream`. -/
structure AnalyticsResp where
  success : Bool
  data : List SrvEvent
  count : Nat
deriving DecidableEq, Repr

/-- `app.get('/api/analytics/clickstream')` from `server-local.js`:
starts from the full log and applies one `.filter` per supplied query
parameter — `item.userId == userId`, `item.page === page`,
`new Date(item.timestamp) >= new Date(startDate)`,
`new Date(item.timestamp) <= new Date(endDate)`. -/
def analyticsClickstream (log : List SrvEvent) (q : Query) : AnalyticsResp :=
  let d := log
  let d := match q.userId with
    | some u => d.filter (fun e => jsLooseEq e.userId (JsVal.str u))
    | none => d
  let d := match q.page with
    | some p => d.filter (fun e => jsStrictEq e.page (JsVal.str p))
    | none => d
  let d := match q.startDate with
    | some s => d.filter (fun e => jsDateGe e.ts s)
    | none => d
  let d := match q.endDate with
    | some s => d.filter (fun e => jsDateLe e.ts s)
    | none => d
  { success := true, data := d, count := d.length }

/-- The conjunction of predicates the handler actually applies: note the
`page` parameter is compared with `===` against the top-level legacy
`page` field only. -/
def codeEventMatches (e : SrvEvent) (q : Query) : Bool :=
  (match q.endDate with | some s => jsDateLe e.ts s | none => true) &&
  ((match q.startDate with | some s => jsDateGe e.ts s | none => true) &&
  ((match q.page with | some p => jsStrictEq e.page (JsVal.str p) | none => true) &&
  (match q.userId with | some u => jsLooseEq e.userId (JsVal.str u) | none => true)))

/-- Modelled from the spec wording of the claim (not from the code): the
`page` parameter is said to match "against the event's `eventData.page` /
legacy `page` field", so an event matches when either field equals the
parameter. -/
def specEventMatches (e : SrvEvent) (q : Query) : Bool :=
  (match q.endDate with | some s => jsDateLe e.ts s | none => true) &&
  ((match q.startDate with | some s => jsDateGe e.ts s | none => true) &&
  ((match q.page with
    | some p => (e.eventDataPage = some p : Bool) || jsStrictEq e.page (JsVal.str p)
    | none => true) &&
  (match q.userId with | some u => jsLooseEq e.userId (JsVal.str u) | none => true)))

/-- The ES comparator semantics of
`userData.sort((a, b) => new Date(b.timestamp) - new Date(a.timestamp))`:
`a` may precede `b` iff the comparator value is `≤ 0`; a NaN comparator
value is treated as `0` (either order allowed), so any Invalid Date
compares as equal to everything. -/
def eventLe (a b : SrvEvent) : Bool :=
  match a.ts, b.ts with
  | some x, some y => decide (y ≤ x)
  | _, _ => true

/-- Insert an element into a list already ordered by `eventLe`
(the sort comparator above). -/
def insertDesc (x : SrvEvent) : List SrvEvent → List SrvEvent
  | [] => [x]
  | y :: ys => if eventLe x y then x :: y :: ys else y :: insertDesc x ys

/-- A comparator-respecting sort modelling `Array.prototype.sort` with
the descending-timestamp comparator. -/
def sortDesc : List SrvEvent → List SrvEvent
  | [] => []
  | x :: xs => insertDesc x (sortDesc xs)

/-- Response shape of `GET /api/clickstream/user/:userId`. -/
structure UserResp where
  success : Bool
  userId : String
  totalActions : Nat
  data : List SrvEvent
deriving DecidableEq, Repr

/-- `app.get('/api/clickstream/user/:userId')` from `server-local.js`:
filters the log with `item.userId === userId || item.userId == userId`
(the path parameter is a string), sorts by timestamp descending, and
reports the count alongside the data. -/
def getUserClickstream (log : List SrvEvent) (uid : String) : UserResp :=
  let userData := log.filter (fun e =>
    jsStrictEq e.userId (JsVal.str uid) || jsLooseEq e.userId (JsVal.str uid))
  let sorted := sortDesc userData
  { success := true, userId := uid, totalActions := sorted.length, data := sorted }

/-- Width and height of the browser viewport at event time. -/
structure Viewport where
  width : Nat
  height : Nat
deriving DecidableEq, Repr

/-- The event-type-specific payload (`eventData`); each field is optional
because different event types populate different subsets. -/
structure EvData where
  page : Option String := none
  courseId : Option Int := none
  courseTitle : Option String := none
  score : Option Int := none
  totalQuestions : Option Int := none
  percentage : Option Int := none
  timeSpent : Option Int := none
  completedAt : Option String := none
deriving DecidableEq, Repr

/-- The request body of `POST /api/clickstream`, every field optional
(the endpoint defensively defaults everything). -/
structure ClickBody where
  sessionId : Option String := none
  userId : JsVal := JsVal.undef
  eventType : Option String := none
  eventData : Option EvData := none
  timestamp : Option String := none
  url : Option String := none
  userAgent : Option String := none
  viewport : Option Viewport := none
  action : Option String := none
  elementId : Option String := none
  page : Option String := none
  details : Option EvData := none
deriving DecidableEq, Repr

/-- The enriched record the ingestion endpoint appends to the log. -/
structure ClickData where
  id : Int
  sessionId : Option String
  userId : JsVal
  eventType : Option String
  eventData : Option EvData
  timestamp : String
  url : Option String
  userAgent : Option String
  viewport : Option Viewport
  ip : String
  action : Option String
  elementId : Option String
  page : Option String
  details : Option EvData
deriving DecidableEq, Repr

/-- The `clickData` construction inside `app.post('/api/clickstream')`:
`id` is `Date.now()`, `timestamp` falls back to server time, `userAgent`
falls back to the request header, `action` mirrors `eventType` and
`details` mirrors `eventData` when the legacy fields are absent. -/
def buildClickData (body : ClickBody) (now : Int) (nowIso reqUserAgent reqIp : String) :
    ClickData :=
  { id := now
    sessionId := body.sessionId
    userId := body.userId
    eventType := body.eventType
    eventData := body.eventData
    timestamp := jsOrStr body.timestamp nowIso
    url := body.url
    userAgent := jsOrOpt body.userAgent (some reqUserAgent)
    viewport := body.viewport
    ip := reqIp
    action := jsOrOpt body.action body.eventType
    elementId := body.elementId
    page := body.page
    details := match body.details with | some d => some d | none => body.eventData }

/-- Response of `POST /api/clickstream`. -/
structure PostResp where
  status : Nat
  success : Bool
  message : String
  id : Option Int
deriving DecidableEq, Repr

/-- `app.post('/api/clickstream')` from `server-local.js`.  `writeOk`
says whether `fs.writeFileSync` succeeds; `writeDB` catches a write
exception and returns `false`, and the handler ignores that boolean, so
the response is built unconditionally.  Returns the response together
with the log as persisted on disk (unchanged when the write failed). -/
def postClickstream (log : List ClickData) (body : ClickBody) (now : Int)
    (nowIso reqUserAgent reqIp : String) (writeOk : Bool) :
    PostResp × List ClickData :=
  let clickData := buildClickData body now nowIso reqUserAgent reqIp
  let clickstream := log ++ [clickData]
  let stored := if writeOk then clickstream else log
  ({ status := 200
     success := true
     message := "Clickstream data recorded"
     id := some clickData.id }, stored)

/-- The event record the client builds in `trackEvent` (the
`clickstreamEvent` object of `ClickstreamService`). -/
structure ClientEvent where
  sessionId : String
  userId : Option String
  eventType : String
  action : String
  eventData : EvData
  details : EvData
  timestamp : String
  url : String
  userAgent : String
  viewport : Viewport
deriving DecidableEq, Repr

/-- Mutable state of the `ClickstreamService` singleton:
`this.sessionId`, `this.userId` (null before `initialize`),
`this.isInitialized`, and the `failed_clickstream_events` list held in
`localStorage`. -/
structure CsState where
  sessionId : String
  userId : Option String
  isInitialized : Bool
  failedQueue : List ClientEvent
deriving DecidableEq, Repr

/-- Browser context the client reads when building an event:
`new Date().toISOString()`, `window.location.href`,
`navigator.userAgent` and the window size. -/
structure BrowserCtx where
  now : String
  url : String
  userAgent : String
  viewport : Viewport
deriving DecidableEq, Repr

/-- Outcome of one `fetch` to `POST /api/clickstream`: a 2xx response
carrying the server-assigned id, a non-2xx status, or a network error. -/
inductive Delivery where
  | ok (id : Int)
  | httpError (status : Nat)
  | netError
deriving DecidableEq, Repr

/-- Whether a delivery outcome is a 2xx success (`response.ok`). -/
def Delivery.isOk : Delivery → Bool
  | .ok _ => true
  | _ => false

/-- The `clickstreamEvent` object built at the top of `trackEvent`. -/
def buildEvent (st : CsState) (ctx : BrowserCtx) (eventType : String)
    (eventData : EvData) : ClientEvent :=
  { sessionId := st.sessionId
    userId := st.userId
    eventType := eventType
    action := eventType
    eventData := eventData
    details := eventData
    timestamp := ctx.now
    url := ctx.url
    userAgent := ctx.userAgent
    viewport := ctx.viewport }

/-- `storeFailedEvent`: push the event onto the
`failed_clickstream_events` list in `localStorage`. -/
def storeFailedEvent (queue : List ClientEvent) (e : ClientEvent) : List ClientEvent :=
  queue ++ [e]

/-- Result of one `trackEvent` call: the value returned to the caller
(the server-assigned id on success, `undefined` otherwise), whether a
network delivery was attempted at all, and the state afterwards. -/
structure TrackResult where
  ret : Option Int
  attempted : Bool
  state : CsState
deriving DecidableEq, Repr

/-- `ClickstreamService.trackEvent(eventType, eventData)`: refuses to
run before `initialize` unless the event is `session_start`; otherwise
builds the event, attempts delivery, returns the server response id on
2xx, and on any failure stores the event for retry and returns
`undefined` without throwing. -/
def trackEvent (st : CsState) (ctx : BrowserCtx) (eventType : String)
    (eventData : EvData) (delivery : Delivery) : TrackResult :=
  if !st.isInitialized && eventType != "session_start" then
    { ret := none, attempted := false, state := st }
  else
    let ev := buildEvent st ctx eventType eventData
    match delivery with
    | .ok i => { ret := some i, attempted := true, state := st }
    | _ =>
      { ret := none, attempted := true
        state := { st with failedQueue := storeFailedEvent st.failedQueue ev } }

/-- `ClickstreamService.retryFailedEvents()`: reads the whole queue;
when it is empty returns immediately; otherwise posts every entry
(`send` gives each attempt's outcome) and then removes the
`failed_clickstream_events` key unconditionally.  Returns the list of
attempted deliveries with their outcomes and the queue afterwards. -/
def retryFailedEvents (queue : List ClientEvent) (send : ClientEvent → Bool) :
    List (ClientEvent × Bool) × List ClientEvent :=
  if queue.length = 0 then ([], queue)
  else (queue.map (fun e => (e, send e)), [])

/-- JavaScript `Math.round`: round half away from positive infinity is
`⌊x + 1/2⌋`. -/
def jsRound (q : ℚ) : Int := ⌊q + 1 / 2⌋

/-- The `eventData` assembled by `trackQuizComplete`: note
`percentage: Math.round((score / totalQuestions) * 100)`. -/
def quizCompleteData (courseId score totalQuestions timeSpent : Int)
    (now : String) : EvData :=
  { courseId := some courseId
    score := some score
    totalQuestions := some totalQuestions
    percentage := some (jsRound ((score : ℚ) / (totalQuestions : ℚ) * 100))
    timeSpent := some timeSpent
    completedAt := some now }

/-- `ClickstreamService.trackQuizComplete`: delegates to `trackEvent`
with event type `quiz_complete` and the payload above. -/
def trackQuizComplete (st : CsState) (ctx : BrowserCtx)
    (courseId score totalQuestions timeSpent : Int) (delivery : Delivery) :
    TrackResult :=
  trackEvent st ctx "quiz_complete"
    (quizCompleteData courseId score totalQuestions timeSpent ctx.now) delivery

/-- An event as seen by the client-side aggregation code (the parsed
JSON coming back from the analytics endpoints).  `day` models
`new Date(event.timestamp).toDateString()`: the local calendar date of
the timestamp, as an integer day index (two timestamps yield the same
`toDateString` exactly when they fall on the same local calendar day). -/
structure AggEvent where
  sessionId : String
  eventType : Option String
  action : Option String
  eventData : Option EvData
  day : Int
deriving DecidableEq, Repr

/-- How an ingested-and-refetched client event appears to the
aggregation code (the ingestion endpoint preserves these fields). -/
def toAgg (e : ClientEvent) (day : Int) : AggEvent :=
  { sessionId := e.sessionId
    eventType := some e.eventType
    action := some e.action
    eventData := some e.eventData
    day := day }

/-- `event.eventType || event.action || 'unknown'` as evaluated by both
aggregation functions (empty strings are falsy). -/
def resolvedType (e : AggEvent) : String :=
  jsOrStr e.eventType (jsOrStr e.action "unknown")

/-- Accumulate one element into a JS `Set` modelled as a list in
insertion order (first occurrence kept). -/
def addUnique [DecidableEq α] (acc : List α) (x : α) : List α :=
  if x ∈ acc then acc else acc ++ [x]

/-- `[...new Set(l)]`: the distinct elements of `l` in first-occurrence
order. -/
def setOfList [DecidableEq α] (l : List α) : List α :=
  l.foldl addUnique []

/-- One entry of `quizzesTaken` in `processProgressData`, with the
`|| 0` defaults the code applies. -/
structure QuizRecord where
  courseId : Option Int
  courseTitle : Option String
  score : Int
  totalQuestions : Int
  percentage : Int
  day : Int
deriving DecidableEq, Repr

/-- One entry of `videoWatched` / `textContentViewed`. -/
structure ViewRecord where
  courseId : Option Int
  day : Int
deriving DecidableEq, Repr

/-- An achievement object pushed by `processProgressData`. -/
structure Achievement where
  title : String
  description : String
  earned : Bool
deriving DecidableEq, Repr

/-- The record returned by `processProgressData`. -/
structure ProgressData where
  totalSessions : Nat
  coursesViewed : List Int
  quizzesTaken : List QuizRecord
  videoWatched : List ViewRecord
  textContentViewed : List ViewRecord
  achievements : List Achievement
  learningStreak : Nat
  totalTimeSpent : Nat
deriving DecidableEq, Repr

/-- The `coursesViewed` set: events with resolved type `course_view`
whose `eventData?.courseId` is truthy (present and nonzero). -/
def coursesViewedOf (cs : List AggEvent) : List Int :=
  setOfList (cs.filterMap (fun e =>
    if resolvedType e = "course_view" then
      match e.eventData.bind (fun d => d.courseId) with
      | some c => if c ≠ 0 then some c else none
      | none => none
    else none))

/-- The quiz record built for one `quiz_complete` event, with the
code's `|| 0` defaults on the numeric fields. -/
def mkQuizRecord (e : AggEvent) : QuizRecord :=
  { courseId := e.eventData.bind (fun d => d.courseId)
    courseTitle := e.eventData.bind (fun d => d.courseTitle)
    score := ((e.eventData.bind (fun d => d.score)).getD 0)
    totalQuestions := ((e.eventData.bind (fun d => d.totalQuestions)).getD 0)
    percentage := ((e.eventData.bind (fun d => d.percentage)).getD 0)
    day := e.day }

/-- The `quizzesTaken` list: one record per `quiz_complete` event, in
log order. -/
def quizzesTakenOf (cs : List AggEvent) : List QuizRecord :=
  cs.filterMap (fun e =>
    if resolvedType e = "quiz_complete" then some (mkQuizRecord e) else none)

/-- The `videoWatched` list: one record per `video_play` event. -/
def videoWatchedOf (cs : List AggEvent) : List ViewRecord :=
  cs.filterMap (fun e =>
    if resolvedType e = "video_play" then
      some { courseId := e.eventData.bind (fun d => d.courseId), day := e.day }
    else none)

/-- The `textContentViewed` list: one record per `text_content_view`
event. -/
def textContentViewedOf (cs : List AggEvent) : List ViewRecord :=
  cs.filterMap (fun e =>
    if resolvedType e = "text_content_view" then
      some { courseId := e.eventData.bind (fun d => d.courseId), day := e.day }
    else none)

/-- The four conditional achievement pushes of `processProgressData`,
in source order. -/
def achievementsOf (cs : List AggEvent) : List Achievement :=
  (if (coursesViewedOf cs).length ≥ 1 then
    [{ title := "First Steps", description := "Viewed your first course", earned := true }]
  else []) ++
  (if (quizzesTakenOf cs).length ≥ 1 then
    [{ title := "Quiz Master", description := "Completed your first quiz", earned := true }]
  else []) ++
  (if (quizzesTakenOf cs).any (fun q => q.percentage ≥ 80) then
    [{ title := "High Achiever", description := "Scored 80% or higher on a quiz", earned := true }]
  else []) ++
  (if (coursesViewedOf cs).length ≥ 3 then
    [{ title := "Explorer", description := "Explored 3 different courses", earned := true }]
  else [])

/-- `processProgressData` from the `LearningProgress` component: the
empty-input guard returns the zeroed record; otherwise sessions are the
distinct `sessionId`s, the collections are gathered per event type, and
`learningStreak` is the number of distinct activity dates
(`activityDates.length` — the code's own comment calls this
"simplified: number of different days with activity"). -/
def processProgressData (cs : List AggEvent) : ProgressData :=
  if cs.isEmpty then
    { totalSessions := 0, coursesViewed := [], quizzesTaken := []
      videoWatched := [], textContentViewed := [], achievements := []
      learningStreak := 0, totalTimeSpent := 0 }
  else
    let sessions := setOfList (cs.map (fun e => e.sessionId))
    let activityDates := setOfList (cs.map (fun e => e.day))
    { totalSessions := sessions.length
      coursesViewed := coursesViewedOf cs
      quizzesTaken := quizzesTakenOf cs
      videoWatched := videoWatchedOf cs
      textContentViewed := textContentViewedOf cs
      achievements := achievementsOf cs
      learningStreak := activityDates.length
      totalTimeSpent := sessions.length * 15 }

/-- The `while (dailyEngagement.has(currentDate.toDateString()))` walk
of `loadLearningAnalytics` in `App-old.jsx`, with explicit fuel.  The
walk visits pairwise-distinct dates, so it can take at most
`dates.length` successful steps; any fuel beyond that returns the same
value, and the callers pass `dates.length + 1`. -/
def streakAux (dates : List Int) (d : Int) : Nat → Nat
  | 0 => 0
  | n + 1 => if d ∈ dates then streakAux dates (d - 1) n + 1 else 0

/-- The learning-streak computation of `loadLearningAnalytics` in
`App-old.jsx`: build the set of activity dates and walk backwards
day-by-day from today while each date has activity. -/
def appOldLearningStreak (cs : List AggEvent) (today : Int) : Nat :=
  let dates := setOfList (cs.map (fun e => e.day))
  streakAux dates today (dates.length + 1)

/-- One entry of `quizCompletions` in `processAnalytics` (no defaults:
missing fields stay `undefined`). -/
structure QuizCompletion where
  courseId : Option Int
  courseTitle : Option String
  score : Option Int
  totalQuestions : Option Int
  percentage : Option Int
  day : Int
deriving DecidableEq, Repr

/-- The record returned by `processAnalytics` in `AnalyticsDashboard`.
The two JS objects used as counters are modelled as association lists in
key-insertion order. -/
structure AnalyticsData where
  totalEvents : Nat
  uniqueSessions : Nat
  eventTypes : List (String × Nat)
  recentEvents : List AggEvent
  topCourses : List (String × Nat)
  quizCompletions : List QuizCompletion
deriving DecidableEq, Repr

/-- `m[k] = (m[k] || 0) + 1` on an object modelled as an association
list: bump the existing entry or append a fresh one. -/
def bump : List (String × Nat) → String → List (String × Nat)
  | [], k => [(k, 1)]
  | (a, n) :: rest, k =>
    if a = k then (a, n + 1) :: rest else (a, n) :: bump rest k

/-- The `topCourses` counter: events with truthy `eventData?.courseId`
are counted under the composite key
`courseId + " - " + (courseTitle || 'Unknown')`. -/
def topCoursesOf (cs : List AggEvent) : List (String × Nat) :=
  cs.foldl
    (fun m e =>
      match e.eventData.bind (fun d => d.courseId) with
      | some c =>
        if c ≠ 0 then
          bump m (toString c ++ " - " ++
            jsOrStr (e.eventData.bind (fun d => d.courseTitle)) "Unknown")
        else m
      | none => m)
    []

/-- The `quizCompletions` list of `processAnalytics`. -/
def quizCompletionsOf (cs : List AggEvent) : List QuizCompletion :=
  cs.filterMap (fun e =>
    if resolvedType e = "quiz_complete" then
      some { courseId := e.eventData.bind (fun d => d.courseId)
             courseTitle := e.eventData.bind (fun d => d.courseTitle)
             score := e.eventData.bind (fun d => d.score)
             totalQuestions := e.eventData.bind (fun d => d.totalQuestions)
             percentage := e.eventData.bind (fun d => d.percentage)
             day := e.day }
    else none)

/-- `processAnalytics` from `AnalyticsDashboard.jsx`: empty input yields
the zeroed record; otherwise counts, the event-type histogram, the last
ten events newest-first (`slice(-10).reverse()`), the course counter and
the quiz-completion list. -/
def processAnalytics (cs : List AggEvent) : AnalyticsData :=
  if cs.isEmpty then
    { totalEvents := 0, uniqueSessions := 0, eventTypes := []
      recentEvents := [], topCourses := [], quizCompletions := [] }
  else
    { totalEvents := cs.length
      uniqueSessions := (setOfList (cs.map (fun e => e.sessionId))).length
      eventTypes := cs.foldl (fun m e => bump m (resolvedType e)) []
      recentEvents := (cs.drop (cs.length - 10)).reverse
      topCourses := topCoursesOf cs
      quizCompletions := quizCompletionsOf cs }

/-- Descending order on parsed timestamps: whenever both events carry a
parseable timestamp, the later one comes first. -/
def tsDescOk (a b : SrvEvent) : Prop :=
  ∀ x, a.ts = some x → ∀ y, b.ts = some y → y ≤ x

/-- A three-day activity trace with events today (day 100), yesterday
(day 99) and three days ago (day 97), and none two days ago (day 98). -/
def csGap : List AggEvent :=
  [ { sessionId := "s1", eventType := some "page_view", action := none, eventData := none, day := 100 }
  , { sessionId := "s1", eventType := some "page_view", action := none, eventData := none, day := 99 }
  , { sessionId := "s2", eventType := some "page_view", action := none, eventData := none, day := 97 } ]

/-- A stored event whose page lives in `eventData.page` only, with no
top-level legacy `page` field. -/
def pageEvent : SrvEvent :=
  { userId := JsVal.str "u1", page := JsVal.undef
    eventDataPage := some "home", ts := some 0 }

/-- The analytics query `?page=home`. -/
def pageQuery : Query := { page := some "home" }

/-- An initialized client state used to instantiate the client-side
theorems. -/
def st0 : CsState :=
  { sessionId := "session_1700000000000_abc123xyz", userId := some "u1"
    isInitialized := true, failedQueue := [] }

/-- A concrete browser context for the same purpose. -/
def ctx0 : BrowserCtx :=
  { now := "2024-01-01T00:00:00.000Z", url := "http://localhost:5173/"
    userAgent := "Mozilla/5.0", viewport := { width := 1280, height := 720 } }

/-- A concrete two-event log for one user, younger event listed last. -/
def logW : List SrvEvent :=
  [ { userId := JsVal.str "u1", page := JsVal.undef, eventDataPage := none, ts := some 10 }
  , { userId := JsVal.str "u1", page := JsVal.undef, eventDataPage := none, ts := some 20 } ]

/-- A client state before `initialize` has been called. -/
def stU : CsState :=
  { sessionId := "session_1700000000001_def456uvw", userId := none
    isInitialized := false, failedQueue := [] }

/-- A stored event whose `timestamp` does not parse (`"not-a-date"`). -/
def badTsEvent : SrvEvent :=
  { userId := JsVal.str "u1", page := JsVal.undef, eventDataPage := none, ts := none }

/-- A one-event trace holding the stored form of a quiz completion
tracked with `score = 8`, `totalQuestions = 10`. -/
def csQuiz : List AggEvent :=
  [toAgg (buildEvent st0 ctx0 "quiz_complete" (quizCompleteData 1 8 10 120 ctx0.now)) 0]

/-- An event of user `u1` with the earlier parseable timestamp 10. -/
def evEarly : SrvEvent :=
  { userId := JsVal.str "u1", page := JsVal.undef, eventDataPage := none, ts := some 10 }

/-- An event of user `u1` with the later parseable timestamp 20. -/
def evLate : SrvEvent :=
  { userId := JsVal.str "u1", page := JsVal.undef, eventDataPage := none, ts := some 20 }

/-- A log for user `u1` where an event with an unparseable timestamp
sits between two events with parseable timestamps 10 and 20. -/
def logMixedTs : List SrvEvent := [evEarly, badTsEvent, evLate]

section Helpers

variable {α : Type _} [DecidableEq α]

theorem mem_addUnique {acc : List α} {x a : α} :
    a ∈ addUnique acc x ↔ a ∈ acc ∨ a = x := by
  unfold addUnique
  split
  · rename_i h
    constructor
    · exact Or.inl
    · rintro (h1 | rfl)
      · exact h1
      · exact h
  · simp [List.mem_append]

theorem mem_foldl_addUnique :
    ∀ (l acc : List α) (a : α), a ∈ l.foldl addUnique acc ↔ a ∈ acc ∨ a ∈ l := by
  intro l
  induction l with
  | nil => simp
  | cons x xs ih =>
    intro acc a
    rw [List.foldl_cons, ih, mem_addUnique]
    simp [or_assoc, List.mem_cons]

theorem mem_setOfList {l : List α} {a : α} : a ∈ setOfList l ↔ a ∈ l := by
  unfold setOfList
  rw [mem_foldl_addUnique]
  simp

end Helpers

theorem two_le_length_of_mem_ne {α : Type _} {l : List α} {a b : α}
    (ha : a ∈ l) (hb : b ∈ l) (hab : a ≠ b) : 2 ≤ l.length := by
  match l with
  | [] => cases ha
  | [x] =>
    rw [List.mem_singleton] at ha hb
    exact absurd (ha.trans hb.symm) hab
  | x :: y :: t => simp [List.length]

theorem streakAux_succ (dates : List Int) (d : Int) (n : Nat) :
    streakAux dates d (n + 1) =
      if d ∈ dates then streakAux dates (d - 1) n + 1 else 0 := rfl

theorem streakAux_stops (dates : List Int) (d : Int)
    (h0 : d ∈ dates) (h1 : d - 1 ∈ dates) (h2 : d - 2 ∉ dates) :
    ∀ fuel, 3 ≤ fuel → streakAux dates d fuel = 2 := by
  intro fuel hf
  obtain ⟨k, rfl⟩ : ∃ k, fuel = k + 3 := ⟨fuel - 3, by omega⟩
  have e1 : d - 1 - 1 = d - 2 := by ring
  show streakAux dates d (k + 2 + 1) = 2
  rw [streakAux_succ, if_pos h0, streakAux_succ, if_pos h1, streakAux_succ, e1,
    if_neg h2]

theorem eventLe_total (a b : SrvEvent) : eventLe a b = true ∨ eventLe b a = true := by
  unfold eventLe
  cases ha : a.ts <;> cases hb : b.ts <;> simp
  omega

theorem eventLe_trans {a b c : SrvEvent}
    (hb : b.ts.isSome = true) (hab : eventLe a b = true) (hbc : eventLe b c = true) :
    eventLe a c = true := by
  unfold eventLe at *
  cases ha : a.ts <;> cases hb2 : b.ts <;> cases hc : c.ts <;>
    simp_all
  omega

theorem insertDesc_perm (x : SrvEvent) (l : List SrvEvent) :
    List.Perm (insertDesc x l) (x :: l) := by
  induction l with
  | nil => exact List.Perm.refl _
  | cons y ys ih =>
    unfold insertDesc
    split
    · exact List.Perm.refl _
    · exact (List.Perm.cons y ih).trans (List.Perm.swap x y ys)

theorem sortDesc_perm (l : List SrvEvent) : List.Perm (sortDesc l) l := by
  induction l with
  | nil => exact List.Perm.refl _
  | cons x xs ih =>
    exact (insertDesc_perm x (sortDesc xs)).trans (List.Perm.cons x ih)

theorem insertDesc_pairwise (x : SrvEvent) (l : List SrvEvent)
    (hall : ∀ e ∈ x :: l, e.ts.isSome = true)
    (hp : l.Pairwise (fun a b => eventLe a b = true)) :
    (insertDesc x l).Pairwise (fun a b => eventLe a b = true) := by
  induction l with
  | nil => simp [insertDesc]
  | cons y ys ih =>
    unfold insertDesc
    by_cases h : eventLe x y = true
    · rw [if_pos h]
      refine List.Pairwise.cons ?_ hp
      intro z hz
      rcases List.mem_cons.mp hz with rfl | hz2
      · exact h
      · have hy : y.ts.isSome = true := hall y (by simp)
        have hyz : eventLe y z = true := (List.pairwise_cons.mp hp).1 z hz2
        exact eventLe_trans hy h hyz
    · rw [if_neg h]
      refine List.Pairwise.cons ?_ ?_
      · intro z hz
        have hz2 : z ∈ x :: ys := (insertDesc_perm x ys).mem_iff.mp hz
        rcases List.mem_cons.mp hz2 with rfl | hz3
        · rcases eventLe_total z y with h1 | h1
          · exact absurd h1 h
          · exact h1
        · exact (List.pairwise_cons.mp hp).1 z hz3
      · refine ih ?_ (List.pairwise_cons.mp hp).2
        intro e he
        rcases List.mem_cons.mp he with rfl | he2
        · exact hall e (by simp)
        · exact hall e (by simp [he2])

theorem sortDesc_pairwise (l : List SrvEvent)
    (hall : ∀ e ∈ l, e.ts.isSome = true) :
    (sortDesc l).Pairwise (fun a b => eventLe a b = true) := by
  induction l with
  | nil => simp [sortDesc]
  | cons x xs ih =>
    show (insertDesc x (sortDesc xs)).Pairwise _
    refine insertDesc_pairwise x (sortDesc xs) ?_ (ih ?_)
    · intro e he
      rcases List.mem_cons.mp he with rfl | he2
      · exact hall e (by simp)
      · exact hall e (by simp [(sortDesc_perm xs).mem_iff.mp he2])
    · intro e he
      exact hall e (by simp [he])

theorem analytics_data_eq (log : List SrvEvent) (q : Query) :
    (analyticsClickstream log q).data = log.filter (fun e => codeEventMatches e q) := by
  unfold analyticsClickstream codeEventMatches
  cases q.userId <;> cases q.page <;> cases q.startDate <;> cases q.endDate <;>
    simp [List.filter_filter]

theorem jsDateGe_none (b : Option Int) : jsDateGe none b = false := by
  cases b <;> rfl

theorem jsDateLe_none (b : Option Int) : jsDateLe none b = false := by
  cases b <;> rfl

/-- C1: contrary to the claim, when writing the event log fails with an
I/O error, `POST /api/clickstream` still responds 200 `{success:true}`
with an id, and nothing is persisted: `writeDB` catches the exception
and returns `false`, and the handler ignores that boolean, so the 500
branch is unreachable for write failures. -/
theorem postClickstream_writeFailure_reports_success (log : List ClickData)
    (body : ClickBody) (now : Int) (nowIso reqUserAgent reqIp : String) :
    (postClickstream log body now nowIso reqUserAgent reqIp false).1.status = 200 ∧
    (postClickstream log body now nowIso reqUserAgent reqIp false).1.success = true ∧
    (postClickstream log body now nowIso reqUserAgent reqIp false).1.status ≠ 500 ∧
    (postClickstream log body now nowIso reqUserAgent reqIp false).2 = log := by
  refine ⟨rfl, rfl, ?_, ?_⟩ <;> simp [postClickstream]

/-- C2 (counterexample): `csGap` has events on day 100 (today), 99
(yesterday) and 97 (three days ago) and none on day 98, yet the
`learningStreak` of `processProgressData` is 3, not 2 — that function
counts all distinct activity dates instead of walking backward. -/
theorem processProgressData_gap_counterexample :
    ((∃ e ∈ csGap, e.day = (100 : Int)) ∧ (∃ e ∈ csGap, e.day = (99 : Int)) ∧
     (∃ e ∈ csGap, e.day = (97 : Int)) ∧ (∀ e ∈ csGap, e.day ≠ (98 : Int))) ∧
    (processProgressData csGap).learningStreak = 3 ∧
    (processProgressData csGap).learningStreak ≠ 2 := by
  refine ⟨by decide, by decide, by decide⟩

/-- C2 (amended): the learning-streak computation of
`loadLearningAnalytics` in `App-old.jsx` walks backward day-by-day from
today and breaks at the first gap: on any event sequence with activity
today, yesterday and three days ago but none two days ago it returns 2.
(`processProgressData` in `LearningProgress` instead reports the count
of distinct activity dates, 3 on such a sequence.) -/
theorem appOldLearningStreak_gap (cs : List AggEvent) (today : Int)
    (h0 : ∃ e ∈ cs, e.day = today) (h1 : ∃ e ∈ cs, e.day = today - 1)
    (_h3 : ∃ e ∈ cs, e.day = today - 3) (h2 : ∀ e ∈ cs, e.day ≠ today - 2) :
    appOldLearningStreak cs today = 2 := by
  unfold appOldLearningStreak
  have m0 : today ∈ setOfList (cs.map (fun e => e.day)) := by
    obtain ⟨e, he, hd⟩ := h0
    exact mem_setOfList.mpr (List.mem_map.mpr ⟨e, he, hd⟩)
  have m1 : today - 1 ∈ setOfList (cs.map (fun e => e.day)) := by
    obtain ⟨e, he, hd⟩ := h1
    exact mem_setOfList.mpr (List.mem_map.mpr ⟨e, he, hd⟩)
  have m2 : today - 2 ∉ setOfList (cs.map (fun e => e.day)) := by
    intro hmem
    obtain ⟨e, he, hd⟩ := List.mem_map.mp (mem_setOfList.mp hmem)
    exact h2 e he hd
  have hlen : 2 ≤ (setOfList (cs.map (fun e => e.day))).length :=
    two_le_length_of_mem_ne m0 m1 (by omega)
  exact streakAux_stops _ today m0 m1 m2 _ (by omega)

/-- C2 (witness): the amended theorem applied to the concrete trace. -/
theorem appOldLearningStreak_gap_witness : appOldLearningStreak csGap 100 = 2 :=
  appOldLearningStreak_gap csGap 100 (by decide) (by decide) (by decide) (by decide)

/-- C3 (counterexample): an event whose page lives only in
`eventData.page` satisfies the claimed predicate for `?page=home`, but
the endpoint returns the empty set — the handler compares the query
only against the top-level legacy `page` field. -/
theorem analytics_pageFilter_counterexample :
    List.filter (fun e => specEventMatches e pageQuery) [pageEvent] = [pageEvent] ∧
    (analyticsClickstream [pageEvent] pageQuery).data = [] := by
  refine ⟨by decide, by decide⟩

/-- C3 (amended): `GET /api/analytics/clickstream` returns exactly the
events satisfying the conjunction of the supplied predicates, where
`userId` matches by loose equality, `page` by strict equality against
the top-level legacy `page` field only (`eventData.page` is not
consulted), and `startDate`/`endDate` are independently optional
inclusive bounds on the parsed timestamp; the result is a subset of the
log and `count` equals the length of `data`. -/
theorem analyticsClickstream_spec (log : List SrvEvent) (q : Query) :
    (analyticsClickstream log q).data = log.filter (fun e => codeEventMatches e q) ∧
    (∀ e ∈ (analyticsClickstream log q).data, e ∈ log) ∧
    (analyticsClickstream log q).count = (analyticsClickstream log q).data.length := by
  refine ⟨analytics_data_eq log q, ?_, rfl⟩
  intro e he
  rw [analytics_data_eq] at he
  exact (List.mem_filter.mp he).1

/-- C4 (counterexample): on `logMixedTs` the per-user endpoint returns
`[ts 10, ts none, ts 20]` unchanged — the NaN comparator value of the
unparseable middle timestamp is treated as 0, so the two parseable
events around it are never compared and the result is not sorted by
timestamp descending: the claim fails as stated. -/
theorem getUserClickstream_sort_counterexample :
    (getUserClickstream logMixedTs "u1").data = [evEarly, badTsEvent, evLate] ∧
    ¬ (getUserClickstream logMixedTs "u1").data.Pairwise tsDescOk := by
  have hdata : (getUserClickstream logMixedTs "u1").data =
      [evEarly, badTsEvent, evLate] := by decide
  refine ⟨hdata, ?_⟩
  intro h
  rw [hdata] at h
  have h2 : tsDescOk evEarly evLate :=
    (List.pairwise_cons.mp h).1 evLate (by simp)
  have h3 : (20 : Int) ≤ 10 := h2 10 rfl 20 rfl
  omega

/-- C4 (amended): `GET /api/clickstream/user/:userId` echoes the user id, returns
exactly the events whose stored `userId` matches the parameter
(`=== || ==`, i.e. loose equality), reports `totalActions` as the number
of returned events, and — whenever every stored timestamp is parseable —
the data is sorted by timestamp descending; with an unparseable
timestamp present the order among the surrounding events is not
guaranteed (see the counterexample above). -/
theorem getUserClickstream_spec (log : List SrvEvent) (uid : String) :
    (getUserClickstream log uid).userId = uid ∧
    (getUserClickstream log uid).totalActions = (getUserClickstream log uid).data.length ∧
    List.Perm (getUserClickstream log uid).data
      (log.filter (fun e =>
        jsStrictEq e.userId (JsVal.str uid) || jsLooseEq e.userId (JsVal.str uid))) ∧
    ((∀ e ∈ log, e.ts.isSome = true) →
      (getUserClickstream log uid).data.Pairwise tsDescOk) := by
  refine ⟨rfl, rfl, sortDesc_perm _, ?_⟩
  intro hall
  have hp := sortDesc_pairwise
    (log.filter (fun e =>
      jsStrictEq e.userId (JsVal.str uid) || jsLooseEq e.userId (JsVal.str uid)))
    (fun e he => hall e (List.mem_filter.mp he).1)
  refine hp.imp ?_
  intro a b hab
  intro x hx y hy
  unfold eventLe at hab
  rw [hx, hy] at hab
  exact of_decide_eq_true hab

/-- C4 (witness): the sortedness conclusion at a concrete two-event log
with parseable timestamps. -/
theorem getUserClickstream_spec_witness :
    (getUserClickstream logW "u1").data.Pairwise tsDescOk :=
  (getUserClickstream_spec logW "u1").2.2.2 (by decide)

/-- C5: after initialization, `trackEvent` builds an event carrying the
session id, user id, both `eventType` and legacy `action`, both
`eventData` and legacy `details`, timestamp, url, userAgent and
viewport; a 2xx delivery returns the server-assigned id and leaves the
retry queue unchanged, and any delivery failure appends the event to the
retry queue and returns `undefined` without raising. -/
theorem trackEvent_spec (st : CsState) (ctx : BrowserCtx) (et : String)
    (ed : EvData) (d : Delivery) (hinit : st.isInitialized = true) :
    (buildEvent st ctx et ed).sessionId = st.sessionId ∧
    (buildEvent st ctx et ed).userId = st.userId ∧
    (buildEvent st ctx et ed).eventType = et ∧
    (buildEvent st ctx et ed).action = et ∧
    (buildEvent st ctx et ed).eventData = ed ∧
    (buildEvent st ctx et ed).details = ed ∧
    (buildEvent st ctx et ed).timestamp = ctx.now ∧
    (buildEvent st ctx et ed).url = ctx.url ∧
    (buildEvent st ctx et ed).userAgent = ctx.userAgent ∧
    (buildEvent st ctx et ed).viewport = ctx.viewport ∧
    (∀ i, d = Delivery.ok i →
      trackEvent st ctx et ed d =
        { ret := some i, attempted := true, state := st }) ∧
    (d.isOk = false →
      trackEvent st ctx et ed d =
        { ret := none, attempted := true
          state := { st with
            failedQueue := st.failedQueue ++ [buildEvent st ctx et ed] } }) := by
  refine ⟨rfl, rfl, rfl, rfl, rfl, rfl, rfl, rfl, rfl, rfl, ?_, ?_⟩
  · rintro i rfl
    simp [trackEvent, hinit]
  · intro hfail
    cases d with
    | ok i => simp [Delivery.isOk] at hfail
    | httpError s => simp [trackEvent, hinit, storeFailedEvent]
    | netError => simp [trackEvent, hinit, storeFailedEvent]

/-- C5 (witness): a concrete failed delivery lands in the queue and a
concrete 2xx delivery returns the server id. -/
theorem trackEvent_spec_witness :
    (trackEvent st0 ctx0 "page_view" {} Delivery.netError).state.failedQueue =
      st0.failedQueue ++ [buildEvent st0 ctx0 "page_view" {}] ∧
    (trackEvent st0 ctx0 "page_view" {} (Delivery.ok 42)).ret = some 42 := by
  constructor
  · rw [(trackEvent_spec st0 ctx0 "page_view" {} Delivery.netError
      rfl).2.2.2.2.2.2.2.2.2.2.2 rfl]
  · rw [(trackEvent_spec st0 ctx0 "page_view" {} (Delivery.ok 42)
      rfl).2.2.2.2.2.2.2.2.2.2.1 42 rfl]

/-- C6: `retryFailedEvents` attempts every queued entry and afterwards
the queue is empty, whatever the individual delivery outcomes were. -/
theorem retryFailedEvents_spec (queue : List ClientEvent) (send : ClientEvent → Bool) :
    ((retryFailedEvents queue send).1.map Prod.fst = queue) ∧
    (retryFailedEvents queue send).2 = [] := by
  unfold retryFailedEvents
  split
  · rename_i h
    have hq : queue = [] := List.length_eq_zero.mp h
    subst hq
    exact ⟨rfl, rfl⟩
  · refine ⟨?_, rfl⟩
    rw [List.map_map,
      show (Prod.fst ∘ fun e : ClientEvent => (e, send e)) = id from rfl,
      List.map_id]

/-- C7: a stored event with an unparseable timestamp is excluded from
any date-bounded analytics query (no error is raised — the handler is
total and still answers success), while the same query without date
bounds still returns it. -/
theorem analytics_unparseableTs (log : List SrvEvent) (e : SrvEvent) (q : Query)
    (hts : e.ts = none) (hmem : e ∈ log) (hu : q.userId = none)
    (hp : q.page = none) :
    ((q.startDate ≠ none ∨ q.endDate ≠ none) →
      e ∉ (analyticsClickstream log q).data) ∧
    ((q.startDate = none ∧ q.endDate = none) →
      e ∈ (analyticsClickstream log q).data) ∧
    (analyticsClickstream log q).success = true := by
  refine ⟨?_, ?_, rfl⟩
  · intro hdates hin
    rw [analytics_data_eq] at hin
    have hpred := (List.mem_filter.mp hin).2
    unfold codeEventMatches at hpred
    rw [hu, hp] at hpred
    rcases hdates with hs | he2
    · obtain ⟨s, hsd⟩ := Option.ne_none_iff_exists'.mp hs
      rw [hsd, hts] at hpred
      simp [jsDateGe_none] at hpred
    · obtain ⟨s, hsd⟩ := Option.ne_none_iff_exists'.mp he2
      rw [hsd, hts] at hpred
      simp [jsDateLe_none] at hpred
  · rintro ⟨hs, he2⟩
    rw [analytics_data_eq]
    refine List.mem_filter.mpr ⟨hmem, ?_⟩
    unfold codeEventMatches
    rw [hu, hp, hs, he2]
    rfl

/-- C7 (witness): the concrete unparseable-timestamp event is excluded
by `?startDate=...` and returned by the unranged query. -/
theorem analytics_unparseableTs_witness :
    badTsEvent ∉
      (analyticsClickstream [badTsEvent] { startDate := some (some 5) }).data ∧
    badTsEvent ∈ (analyticsClickstream [badTsEvent] {}).data :=
  ⟨(analytics_unparseableTs [badTsEvent] badTsEvent { startDate := some (some 5) }
      rfl (List.mem_singleton.mpr rfl) rfl rfl).1 (Or.inl (by simp)),
   (analytics_unparseableTs [badTsEvent] badTsEvent {}
      rfl (List.mem_singleton.mpr rfl) rfl rfl).2.1 ⟨rfl, rfl⟩⟩

/-- C8: a quiz completion tracked with `score = 8`,
`totalQuestions = 10` carries `eventData.percentage = 80`
(`Math.round(8 / 10 * 100)`), and any event trace containing the stored
form of that event earns the "High Achiever" achievement in
`processProgressData`. -/
theorem trackQuizComplete_highAchiever (st : CsState) (ctx : BrowserCtx)
    (cid t day : Int) (cs : List AggEvent)
    (hmem : toAgg (buildEvent st ctx "quiz_complete"
      (quizCompleteData cid 8 10 t ctx.now)) day ∈ cs) :
    (quizCompleteData cid 8 10 t ctx.now).percentage = some 80 ∧
    ∃ a ∈ (processProgressData cs).achievements, a.title = "High Achiever" := by
  have hperc : (quizCompleteData cid 8 10 t ctx.now).percentage = some 80 := by
    show some (jsRound ((8 : ℚ) / (10 : ℚ) * 100)) = some 80
    norm_num [jsRound]
  refine ⟨hperc, ?_⟩
  have hq : mkQuizRecord (toAgg (buildEvent st ctx "quiz_complete"
      (quizCompleteData cid 8 10 t ctx.now)) day) ∈ quizzesTakenOf cs := by
    refine List.mem_filterMap.mpr ⟨_, hmem, ?_⟩
    have hrt : resolvedType (toAgg (buildEvent st ctx "quiz_complete"
        (quizCompleteData cid 8 10 t ctx.now)) day) = "quiz_complete" := by
      simp [resolvedType, toAgg, buildEvent, jsOrStr]
    rw [if_pos hrt]
  have hp80 : (mkQuizRecord (toAgg (buildEvent st ctx "quiz_complete"
      (quizCompleteData cid 8 10 t ctx.now)) day)).percentage = 80 := by
    show ((some (quizCompleteData cid 8 10 t ctx.now)).bind
      (fun d2 => d2.percentage)).getD 0 = 80
    rw [Option.some_bind, hperc]
    rfl
  have hany : (quizzesTakenOf cs).any (fun qr => qr.percentage ≥ 80) = true := by
    refine List.any_eq_true.mpr ⟨_, hq, ?_⟩
    rw [hp80]
    decide
  have hne : ¬cs.isEmpty = true := by
    rcases cs with _ | ⟨x, xs⟩
    · cases hmem
    · simp [List.isEmpty]
  have hach : (processProgressData cs).achievements = achievementsOf cs := by
    unfold processProgressData
    rw [if_neg hne]
  rw [hach]
  refine ⟨{ title := "High Achiever"
            description := "Scored 80% or higher on a quiz", earned := true },
    ?_, rfl⟩
  unfold achievementsOf
  rw [hany]
  simp [List.mem_append]

/-- C8 (witness): the theorem at the concrete one-event trace. -/
theorem trackQuizComplete_highAchiever_witness :
    (quizCompleteData 1 8 10 120 ctx0.now).percentage = some 80 ∧
    ∃ a ∈ (processProgressData csQuiz).achievements, a.title = "High Achiever" :=
  trackQuizComplete_highAchiever st0 ctx0 1 120 0 csQuiz
    (List.mem_singleton.mpr rfl)

/-- C9: both aggregation functions are pure (repeated calls on the same
input agree definitionally) and map the empty event sequence to the
zeroed statistics record rather than an error. -/
theorem aggregation_pure_and_zero :
    processAnalytics [] =
      { totalEvents := 0, uniqueSessions := 0, eventTypes := []
        recentEvents := [], topCourses := [], quizCompletions := [] } ∧
    processProgressData [] =
      { totalSessions := 0, coursesViewed := [], quizzesTaken := []
        videoWatched := [], textContentViewed := [], achievements := []
        learningStreak := 0, totalTimeSpent := 0 } ∧
    ∀ cs : List AggEvent, processAnalytics cs = processAnalytics cs ∧
      processProgressData cs = processProgressData cs :=
  ⟨rfl, rfl, fun _ => ⟨rfl, rfl⟩⟩

/-- C10: calling `trackEvent` before `initialize` with an event type
other than `session_start` attempts no delivery, queues nothing, and
returns `undefined`: the interaction is dropped entirely. -/
theorem trackEvent_uninitialized (st : CsState) (ctx : BrowserCtx)
    (et : String) (ed : EvData) (d : Delivery)
    (h1 : st.isInitialized = false) (h2 : et ≠ "session_start") :
    (trackEvent st ctx et ed d).attempted = false ∧
    (trackEvent st ctx et ed d).ret = none ∧
    (trackEvent st ctx et ed d).state = st := by
  unfold trackEvent
  rw [h1]
  simp [h2]

/-- C10 (witness): a concrete pre-initialization `page_view` call is
dropped. -/
theorem trackEvent_uninitialized_witness :
    (trackEvent stU ctx0 "page_view" {} (Delivery.ok 1)).attempted = false ∧
    (trackEvent stU ctx0 "page_view" {} (Delivery.ok 1)).ret = none ∧
    (trackEvent stU ctx0 "page_view" {} (Delivery.ok 1)).state = stU :=
  trackEvent_uninitialized stU ctx0 "page_view" {} (Delivery.ok 1) rfl
    (by decide)

end EduTrack
